import Mathlib

/-!
Shallow embedding of the glow computation-graph node model
(`src/include/glow/Graph/Nodes.h`) and proofs of the shape-inference and
accessor properties the specification states about it.

Modelling conventions:
* glow's `Type` is the pair `(element kind, shape)`; types are interned per
  module, so two `TypeRef`s are equal iff their element kinds and shapes are
  equal.  We model a `TypeRef` as the value `Ty` itself; `DecidableEq Ty`
  then coincides with glow's handle equality.
* `Node*` operands are modelled as `Node` values (kind, result type, name);
  the claims under study only observe an operand through its type and its
  identity, both preserved by value semantics.
* Node subclasses become structures holding the base `Node` plus their
  operand and attribute fields; each C++ constructor becomes a `mk...`
  function.  Constructors whose result type comes from a `getOutputType`
  helper that can reject shapes return `Except GlowError _`; constructors
  that are total in the source are total functions here.
-/

namespace Glow

/-- Element kinds of tensor types (spec section 3: `{f32, f16, i32, i8}`). -/
inductive ElemKind where
  | FloatTy
  | Float16Ty
  | Int32Ty
  | Int8Ty
deriving DecidableEq

/-- glow's `Type` descriptor: an element kind and a shape (list of extents).
Interning makes handle equality coincide with structural equality, so the
descriptor value itself stands in for `TypeRef`. -/
structure Ty where
  elemKind : ElemKind
  dims : List Nat
deriving DecidableEq

/-- The error taxonomy of the specification (section 7). -/
inductive GlowError where
  | InvalidOperand
  | ShapeMismatch
  | TypeMismatch
  | DanglingUse
  | UnknownKind
deriving DecidableEq

/-- The closed kind tag (`Kinded::Kind`), one constructor per node class in
`Nodes.h`. -/
inductive NodeKind where
  | WeightVarKind
  | ConvolutionInstKind
  | PoolInstKind
  | FullyConnectedInstKind
  | ReluInstKind
  | SigmoidInstKind
  | TanhInstKind
  | SoftMaxInstKind
  | RegressionInstKind
  | TransposeInstKind
  | ReshapeInstKind
  | ConcatInstKind
  | BatchNormalizationInstKind
  | ArithmeticInstKind
  | LocalResponseNormalizationInstKind
deriving DecidableEq

/-- The `Node` base: kind tag, result type and name (`Node(kind, Ty, name)`).
An operand `Node*` is modelled as such a value. -/
structure Node where
  kind : NodeKind
  ty : Ty
  name : String
deriving DecidableEq

/-- `Node::getType` returns the node's result type. -/
def Node.getType (n : Node) : Ty := n.ty

/-- `PoolInst::OpKind`. -/
inductive PoolOpKind where
  | Max
  | Avg
deriving DecidableEq

/-- `ArithmeticInst::OpKind`. -/
inductive ArithmeticOpKind where
  | Add
  | Mul
  | Sub
  | Div
  | Max
  | CmpLTE
deriving DecidableEq

/-- `ConvolutionNode` (Nodes.h:31-68): operands `in`, `filter`, `bias`,
attributes `kernel`, `stride`, `pad`, `depth`; the base holds the computed
output type. -/
structure ConvolutionNode where
  base : Node
  in_ : Node
  filter : Node
  bias : Node
  kernel : Nat
  stride : Nat
  pad : Nat
  depth : Nat
deriving DecidableEq

/-- Modelled from the spec: the body of `ConvolutionNode::getOutputType` is
declared at Nodes.h:42-43 but not defined anywhere under `src/`.  Spec
section 4.5 (Convolution): for input `[N,H,W,C_in]` the output shape is
`[N, (H + 2*pad - kernel)/stride + 1, (W + 2*pad - kernel)/stride + 1, depth]`,
the element kind is preserved, and construction fails `ShapeMismatch`
if the division is not integral (or the input is not rank 4). -/
def convOutputType (ty : Ty) (pad kernel stride depth : Nat) : Except GlowError Ty :=
  match ty.dims with
  | [n, h, w, _c] =>
    if (h + 2 * pad - kernel) % stride == 0 && (w + 2 * pad - kernel) % stride == 0 then
      Except.ok
        ⟨ty.elemKind,
          [n, (h + 2 * pad - kernel) / stride + 1, (w + 2 * pad - kernel) / stride + 1, depth]⟩
    else
      Except.error GlowError.ShapeMismatch
  | _ => Except.error GlowError.ShapeMismatch

/-- `ConvolutionNode::ConvolutionNode` (Nodes.h:46-52): the base is built with
`getOutputType(M, in->getType(), pad, kernel, stride, depth)` and the operands
and attributes are stored unchanged. -/
def mkConvolutionNode (in_ : Node) (name : String) (filter bias : Node)
    (kernel stride pad depth : Nat) : Except GlowError ConvolutionNode :=
  (convOutputType in_.getType pad kernel stride depth).map fun ty =>
    ⟨⟨NodeKind.ConvolutionInstKind, ty, name⟩, in_, filter, bias, kernel, stride, pad, depth⟩

/-- `ConvolutionNode::getInput`. -/
def ConvolutionNode.getInput (n : ConvolutionNode) : Node := n.in_

/-- `ConvolutionNode::getFilter`. -/
def ConvolutionNode.getFilter (n : ConvolutionNode) : Node := n.filter

/-- `ConvolutionNode::getBias`. -/
def ConvolutionNode.getBias (n : ConvolutionNode) : Node := n.bias

/-- `ConvolutionNode::getKernel`. -/
def ConvolutionNode.getKernel (n : ConvolutionNode) : Nat := n.kernel

/-- `ConvolutionNode::getStride`. -/
def ConvolutionNode.getStride (n : ConvolutionNode) : Nat := n.stride

/-- `ConvolutionNode::getPad`. -/
def ConvolutionNode.getPad (n : ConvolutionNode) : Nat := n.pad

/-- `ConvolutionNode::getDepth`. -/
def ConvolutionNode.getDepth (n : ConvolutionNode) : Nat := n.depth

/-- Concrete input node for scenario S1: an `f32 [1,8,8,3]` tensor. -/
def convInEx : Node := ⟨NodeKind.WeightVarKind, ⟨ElemKind.FloatTy, [1, 8, 8, 3]⟩, "input"⟩

/-- Concrete filter node for scenario S1: `f32 [16,3,3,3]`. -/
def convFilterEx : Node := ⟨NodeKind.WeightVarKind, ⟨ElemKind.FloatTy, [16, 3, 3, 3]⟩, "filter"⟩

/-- Concrete bias node for scenario S1: `f32 [16]`. -/
def convBiasEx : Node := ⟨NodeKind.WeightVarKind, ⟨ElemKind.FloatTy, [16]⟩, "bias"⟩

/-- The convolution node scenario S1 constructs. -/
def convNodeEx : ConvolutionNode :=
  ⟨⟨NodeKind.ConvolutionInstKind, ⟨ElemKind.FloatTy, [1, 8, 8, 16]⟩, "conv"⟩,
    convInEx, convFilterEx, convBiasEx, 3, 1, 1, 16⟩

/-- `PoolNode` (Nodes.h:70-97): operand `in`, attributes `kernel`, `stride`,
`pad` and the pooling kind. -/
structure PoolNode where
  base : Node
  in_ : Node
  kernel : Nat
  stride : Nat
  pad : Nat
  kind : PoolOpKind
deriving DecidableEq

/-- Modelled from the spec: the body of `PoolNode::getOutputType` is declared
at Nodes.h:78-79 but not defined anywhere under `src/`.  Spec section 4.5
(Pool): output `[N, outH, outW, C]` by the same formula as convolution, with
the channel count and element kind preserved. -/
def poolOutputType (ty : Ty) (pad kernel stride : Nat) : Except GlowError Ty :=
  match ty.dims with
  | [n, h, w, c] =>
    if (h + 2 * pad - kernel) % stride == 0 && (w + 2 * pad - kernel) % stride == 0 then
      Except.ok
        ⟨ty.elemKind,
          [n, (h + 2 * pad - kernel) / stride + 1, (w + 2 * pad - kernel) / stride + 1, c]⟩
    else
      Except.error GlowError.ShapeMismatch
  | _ => Except.error GlowError.ShapeMismatch

/-- `PoolNode::PoolNode` (Nodes.h:82-86): the base is built with
`getOutputType(M, in->getType(), pad, kernel, stride)`. -/
def mkPoolNode (in_ : Node) (name : String) (kind : PoolOpKind)
    (kernel stride pad : Nat) : Except GlowError PoolNode :=
  (poolOutputType in_.getType pad kernel stride).map fun ty =>
    ⟨⟨NodeKind.PoolInstKind, ty, name⟩, in_, kernel, stride, pad, kind⟩

/-- `PoolNode::getInput`. -/
def PoolNode.getInput (n : PoolNode) : Node := n.in_

/-- `PoolNode::getKernel`. -/
def PoolNode.getKernel (n : PoolNode) : Nat := n.kernel

/-- `PoolNode::getStride`. -/
def PoolNode.getStride (n : PoolNode) : Nat := n.stride

/-- `PoolNode::getPad`. -/
def PoolNode.getPad (n : PoolNode) : Nat := n.pad

/-- `PoolNode::getKind`. -/
def PoolNode.getKind (n : PoolNode) : PoolOpKind := n.kind

/-- Concrete input node for scenario S2: `f32 [1,8,8,16]`. -/
def poolInEx : Node := ⟨NodeKind.WeightVarKind, ⟨ElemKind.FloatTy, [1, 8, 8, 16]⟩, "pin"⟩

/-- The pool node scenario S2 constructs. -/
def poolNodeEx : PoolNode :=
  ⟨⟨NodeKind.PoolInstKind, ⟨ElemKind.FloatTy, [1, 4, 4, 16]⟩, "pool"⟩,
    poolInEx, 2, 2, 0, PoolOpKind.Max⟩

/-- `ConcatNode` (Nodes.h:224-245): a list of input operands and the axis
`dim` along which they are concatenated. -/
structure ConcatNode where
  base : Node
  in_ : List Node
  dim : Nat
deriving DecidableEq

/-- `a` and `b` have equal length and equal entries everywhere except
(possibly) at index `dim`. -/
def dimsEqualExcept (a b : List Nat) (dim : Nat) : Bool :=
  a.length == b.length &&
    (List.range a.length).all fun i => i == dim || a.getD i 0 == b.getD i 0

/-- Modelled from the spec: the body of `ConcatNode::getOutputType` is
declared at Nodes.h:231-232 but not defined anywhere under `src/`.  Spec
section 4.5 (Concat): at least one input; all inputs must have equal rank and
equal extents on every axis other than `dim`; the output shape equals any
input's shape with the extent on `dim` replaced by the sum of the inputs'
extents on `dim`; element kind preserved from the first operand. -/
def concatOutputType (inputs : List Node) (dim : Nat) : Except GlowError Ty :=
  match inputs with
  | [] => Except.error GlowError.InvalidOperand
  | t :: rest =>
    if dim < t.ty.dims.length ∧
        (rest.all fun u => dimsEqualExcept t.ty.dims u.ty.dims dim) = true then
      Except.ok
        ⟨t.ty.elemKind,
          t.ty.dims.set dim (((t :: rest).map fun u => u.ty.dims.getD dim 0).sum)⟩
    else
      Except.error GlowError.ShapeMismatch

/-- `ConcatNode::ConcatNode` (Nodes.h:235-238): the base is built with
`getOutputType(M, src, dim)` and the inputs and axis are stored. -/
def mkConcatNode (name : String) (src : List Node) (dim : Nat) :
    Except GlowError ConcatNode :=
  (concatOutputType src dim).map fun ty =>
    ⟨⟨NodeKind.ConcatInstKind, ty, name⟩, src, dim⟩

/-- `ConcatNode::getInputs`. -/
def ConcatNode.getInputs (n : ConcatNode) : List Node := n.in_

/-- `ConcatNode::getDim`. -/
def ConcatNode.getDim (n : ConcatNode) : Nat := n.dim

/-- First concrete input of scenario S3: `f32 [2,3,4]`. -/
def catA : Node := ⟨NodeKind.WeightVarKind, ⟨ElemKind.FloatTy, [2, 3, 4]⟩, "a"⟩

/-- Second concrete input of scenario S3: `f32 [2,5,4]`. -/
def catB : Node := ⟨NodeKind.WeightVarKind, ⟨ElemKind.FloatTy, [2, 5, 4]⟩, "b"⟩

/-- The concat node scenario S3 constructs. -/
def catNodeEx : ConcatNode :=
  ⟨⟨NodeKind.ConcatInstKind, ⟨ElemKind.FloatTy, [2, 8, 4]⟩, "concat"⟩, [catA, catB], 1⟩

/-- `ReluNode` (Nodes.h:127-134). -/
structure ReluNode where
  base : Node
  in_ : Node
deriving DecidableEq

/-- `ReluNode::ReluNode` (Nodes.h:131-132): the result type is the input's
type, unchanged; the single operand is stored. -/
def mkReluNode (in_ : Node) (name : String) : ReluNode :=
  ⟨⟨NodeKind.ReluInstKind, in_.getType, name⟩, in_⟩

/-- `ReluNode::getInput`. -/
def ReluNode.getInput (n : ReluNode) : Node := n.in_

/-- `SigmoidNode` (Nodes.h:136-144). -/
structure SigmoidNode where
  base : Node
  in_ : Node
deriving DecidableEq

/-- `SigmoidNode::SigmoidNode` (Nodes.h:140-141). -/
def mkSigmoidNode (in_ : Node) (name : String) : SigmoidNode :=
  ⟨⟨NodeKind.SigmoidInstKind, in_.getType, name⟩, in_⟩

/-- `SigmoidNode::getInput`. -/
def SigmoidNode.getInput (n : SigmoidNode) : Node := n.in_

/-- `TanhNode` (Nodes.h:146-154). -/
structure TanhNode where
  base : Node
  in_ : Node
deriving DecidableEq

/-- `TanhNode::TanhNode` (Nodes.h:150-151). -/
def mkTanhNode (in_ : Node) (name : String) : TanhNode :=
  ⟨⟨NodeKind.TanhInstKind, in_.getType, name⟩, in_⟩

/-- `TanhNode::getInput`. -/
def TanhNode.getInput (n : TanhNode) : Node := n.in_

/-- `TransposeNode` (Nodes.h:188-204): operand `in` and shuffle attribute. -/
structure TransposeNode where
  base : Node
  in_ : Node
  shuffle : List Nat
deriving DecidableEq

/-- `TransposeNode::TransposeNode` (Nodes.h:193-196).  Note what the source
does: the base is built with `in->getType()` — the input's type, unchanged and
unpermuted — and `shuffle` is copied into the node without any validation.
There is no failure path. -/
def mkTransposeNode (in_ : Node) (name : String) (shuffle : List Nat) : TransposeNode :=
  ⟨⟨NodeKind.TransposeInstKind, in_.getType, name⟩, in_, shuffle⟩

/-- `TransposeNode::getInput`. -/
def TransposeNode.getInput (n : TransposeNode) : Node := n.in_

/-- `TransposeNode::getShuffle`. -/
def TransposeNode.getShuffle (n : TransposeNode) : List Nat := n.shuffle

/-- `shuffle` is a permutation of `[0 .. rank-1]` (spec section 3, invariant
5).  Stated for the claims; the source performs no such check. -/
def isPermutationOf (shuffle : List Nat) (rank : Nat) : Bool :=
  shuffle.length == rank && (List.range rank).all fun i => shuffle.contains i

/-- `ReshapeNode` (Nodes.h:206-222): operand `in` and target dims attribute. -/
structure ReshapeNode where
  base : Node
  in_ : Node
  dims : List Nat
deriving DecidableEq

/-- `ReshapeNode::ReshapeNode` (Nodes.h:211-214).  Note what the source does:
the base is built with `in->getType()` — the input's type, not a type of shape
`dims` — and `dims` is stored without any product check.  There is no failure
path. -/
def mkReshapeNode (in_ : Node) (name : String) (dims : List Nat) : ReshapeNode :=
  ⟨⟨NodeKind.ReshapeInstKind, in_.getType, name⟩, in_, dims⟩

/-- `ReshapeNode::getInput`. -/
def ReshapeNode.getInput (n : ReshapeNode) : Node := n.in_

/-- `ReshapeNode::getDims`. -/
def ReshapeNode.getDims (n : ReshapeNode) : List Nat := n.dims

/-- `ArithmeticNode` (Nodes.h:280-297): operands `LHS`, `RHS` and the
operation kind. -/
structure ArithmeticNode where
  base : Node
  LHS : Node
  RHS : Node
  kind : ArithmeticOpKind
deriving DecidableEq

/-- `ArithmeticNode::ArithmeticNode` (Nodes.h:287-290).  Note what the source
does: the base is built with `LHS->getType()`; the RHS type is never compared
against it.  There is no failure path. -/
def mkArithmeticNode (name : String) (LHS RHS : Node) (kind : ArithmeticOpKind) :
    ArithmeticNode :=
  ⟨⟨NodeKind.ArithmeticInstKind, LHS.getType, name⟩, LHS, RHS, kind⟩

/-- `ArithmeticNode::getLHS`. -/
def ArithmeticNode.getLHS (n : ArithmeticNode) : Node := n.LHS

/-- `ArithmeticNode::getRHS`. -/
def ArithmeticNode.getRHS (n : ArithmeticNode) : Node := n.RHS

/-- `ArithmeticNode::getKind`. -/
def ArithmeticNode.getKind (n : ArithmeticNode) : ArithmeticOpKind := n.kind

/-- `LocalResponseNormalizationNode` (Nodes.h:299-330).  The C++ class has a
`Node *scale_` member; because the constructor's initializer list never
initializes it (see `mkLocalResponseNormalizationNode`), the member is
modelled as `Option Node`, with `none` standing for the indeterminate
(uninitialized) value. -/
structure LocalResponseNormalizationNode where
  base : Node
  in_ : Node
  scale : Option Node
  halfWindowSize : Nat
  alpha : Float
  beta : Float
  k : Float

/-- `LocalResponseNormalizationNode::LocalResponseNormalizationNode`
(Nodes.h:312-318).  The initializer list is
`in_(in), halfWindowSize_(halfWindowSize), alpha_(alpha), beta_(beta), k_(k)`:
the `scale` parameter is accepted but `scale_` is never initialized, so the
field is left with no defined value (`none`). -/
def mkLocalResponseNormalizationNode (in_ : Node) (name : String) (_scale : Node)
    (halfWindowSize : Nat) (alpha beta k : Float) : LocalResponseNormalizationNode :=
  ⟨⟨NodeKind.LocalResponseNormalizationInstKind, in_.getType, name⟩, in_, none,
    halfWindowSize, alpha, beta, k⟩

/-- `LocalResponseNormalizationNode::getInput`. -/
def LocalResponseNormalizationNode.getInput (n : LocalResponseNormalizationNode) : Node := n.in_

/-- `LocalResponseNormalizationNode::getScale`: returns the (never
initialized) `scale_` member. -/
def LocalResponseNormalizationNode.getScale (n : LocalResponseNormalizationNode) :
    Option Node := n.scale

/-- Rank-4 input used for the transpose scenarios (S4): `f32 [1,2,3,4]`. -/
def transInEx : Node := ⟨NodeKind.WeightVarKind, ⟨ElemKind.FloatTy, [1, 2, 3, 4]⟩, "t4"⟩

/-- Input used for the reshape scenario (S5): `f32 [2,3,4]`. -/
def reshapeInEx : Node := ⟨NodeKind.WeightVarKind, ⟨ElemKind.FloatTy, [2, 3, 4]⟩, "r3"⟩

/-- Left operand with type `f32 [2]` for the arithmetic scenario. -/
def arithLEx : Node := ⟨NodeKind.WeightVarKind, ⟨ElemKind.FloatTy, [2]⟩, "lhs"⟩

/-- Right operand with the different type `f32 [3]`. -/
def arithREx : Node := ⟨NodeKind.WeightVarKind, ⟨ElemKind.FloatTy, [3]⟩, "rhs"⟩

/-- Input node for the local-response-normalization scenario. -/
def lrnInEx : Node := ⟨NodeKind.WeightVarKind, ⟨ElemKind.FloatTy, [1, 8, 8, 16]⟩, "li"⟩

/-- Scale operand passed to the local-response-normalization constructor. -/
def lrnScaleEx : Node := ⟨NodeKind.WeightVarKind, ⟨ElemKind.FloatTy, [1, 8, 8, 16]⟩, "ls"⟩

/-- C1: every `ConvolutionNode` successfully constructed over an input of shape
`[N,H,W,C]` with attributes `kernel`, `stride`, `pad`, `depth` has result type
of the input's element kind and shape
`[N, (H + 2*pad - kernel)/stride + 1, (W + 2*pad - kernel)/stride + 1, depth]`. -/
theorem conv_output_shape (in_ filter bias : Node) (name : String)
    (N H W C kernel stride pad depth : Nat) (n : ConvolutionNode)
    (hdims : in_.ty.dims = [N, H, W, C])
    (hok : mkConvolutionNode in_ name filter bias kernel stride pad depth = Except.ok n) :
    n.base.ty =
      ⟨in_.ty.elemKind,
        [N, (H + 2 * pad - kernel) / stride + 1, (W + 2 * pad - kernel) / stride + 1, depth]⟩ := by
  unfold mkConvolutionNode convOutputType Node.getType at hok
  rw [hdims] at hok
  dsimp only at hok
  by_cases hc :
      ((H + 2 * pad - kernel) % stride == 0 && (W + 2 * pad - kernel) % stride == 0) = true
  · rw [if_pos hc] at hok
    simp only [Except.map] at hok
    cases hok
    rfl
  · rw [if_neg hc] at hok
    simp only [Except.map] at hok
    cases hok

/-- C1 witness: scenario S1, input `f32 [1,8,8,3]`, `kernel=3, stride=1, pad=1,
depth=16` yields result type `f32 [1,8,8,16]`. -/
theorem conv_output_shape_witness :
    convNodeEx.base.ty = ⟨ElemKind.FloatTy, [1, 8, 8, 16]⟩ :=
  (conv_output_shape convInEx convFilterEx convBiasEx "conv" 1 8 8 3 3 1 1 16 convNodeEx
    rfl rfl).trans (by decide)

/-- C2: every `PoolNode` successfully constructed over an input of shape
`[N,H,W,C]` with attributes `kernel`, `stride`, `pad` has result type of the
input's element kind and shape
`[N, (H + 2*pad - kernel)/stride + 1, (W + 2*pad - kernel)/stride + 1, C]`. -/
theorem pool_output_shape (in_ : Node) (name : String) (kind : PoolOpKind)
    (N H W C kernel stride pad : Nat) (n : PoolNode)
    (hdims : in_.ty.dims = [N, H, W, C])
    (hok : mkPoolNode in_ name kind kernel stride pad = Except.ok n) :
    n.base.ty =
      ⟨in_.ty.elemKind,
        [N, (H + 2 * pad - kernel) / stride + 1, (W + 2 * pad - kernel) / stride + 1, C]⟩ := by
  unfold mkPoolNode poolOutputType Node.getType at hok
  rw [hdims] at hok
  dsimp only at hok
  by_cases hc :
      ((H + 2 * pad - kernel) % stride == 0 && (W + 2 * pad - kernel) % stride == 0) = true
  · rw [if_pos hc] at hok
    simp only [Except.map] at hok
    cases hok
    rfl
  · rw [if_neg hc] at hok
    simp only [Except.map] at hok
    cases hok

/-- C2 witness: scenario S2, input `f32 [1,8,8,16]`, `Max`, `kernel=2,
stride=2, pad=0` yields result shape `[1,4,4,16]`. -/
theorem pool_output_shape_witness :
    poolNodeEx.base.ty = ⟨ElemKind.FloatTy, [1, 4, 4, 16]⟩ :=
  (pool_output_shape poolInEx "pool" PoolOpKind.Max 1 8 8 16 2 2 0 poolNodeEx
    rfl rfl).trans (by decide)

/-- C3: every `ConcatNode` successfully constructed from inputs of equal rank
and equal extents on every axis other than `dim` (with `dim` a valid axis) has
result shape equal to the first input's shape with the extent on `dim`
replaced by the sum of the inputs' extents on `dim`. -/
theorem concat_output_shape (name : String) (t : Node) (rest : List Node)
    (dim : Nat) (n : ConcatNode)
    (hdim : dim < t.ty.dims.length)
    (hmatch : (rest.all fun u => dimsEqualExcept t.ty.dims u.ty.dims dim) = true)
    (hok : mkConcatNode name (t :: rest) dim = Except.ok n) :
    n.base.ty.dims =
      t.ty.dims.set dim (((t :: rest).map fun u => u.ty.dims.getD dim 0).sum) := by
  unfold mkConcatNode concatOutputType at hok
  dsimp only at hok
  rw [if_pos ⟨hdim, hmatch⟩] at hok
  simp only [Except.map] at hok
  cases hok
  rfl

/-- C3 witness: scenario S3, inputs `[2,3,4]` and `[2,5,4]` with `dim=1`
yield result shape `[2,8,4]`. -/
theorem concat_output_shape_witness :
    catNodeEx.base.ty.dims = [2, 8, 4] :=
  (concat_output_shape "concat" catA [catB] 1 catNodeEx
    (by decide) (by decide) rfl).trans (by decide)

/-- C4 (code bug): the `TransposeNode` constructor passes `in->getType()`
through unchanged, so for input `[1,2,3,4]` and `shuffle=[0,3,1,2]` the
result shape is `[1,2,3,4]` — not the permuted `[1,4,2,3]` the specification
requires. -/
theorem transpose_result_not_permuted :
    (mkTransposeNode transInEx "t" [0, 3, 1, 2]).base.ty.dims = [1, 2, 3, 4] ∧
    (mkTransposeNode transInEx "t" [0, 3, 1, 2]).base.ty.dims ≠ [1, 4, 2, 3] := by
  decide

/-- C5 (code bug): the `ReshapeNode` constructor uses `in->getType()` as the
result type and performs no product check, so for input `[2,3,4]` the result
shape with `dims=[6,4]` is `[2,3,4]` (not `[6,4]`), and `dims=[5,5]`
constructs a node successfully (storing `[5,5]`) instead of failing
`ShapeMismatch`. -/
theorem reshape_ignores_dims :
    (mkReshapeNode reshapeInEx "r" [6, 4]).base.ty.dims = [2, 3, 4] ∧
    (mkReshapeNode reshapeInEx "r" [6, 4]).base.ty.dims ≠ [6, 4] ∧
    (mkReshapeNode reshapeInEx "r" [5, 5]).base.ty.dims = [2, 3, 4] ∧
    (mkReshapeNode reshapeInEx "r" [5, 5]).getDims = [5, 5] := by
  decide

/-- C6 (code bug): the `TransposeNode` constructor performs no permutation
check and has no failure path: with the non-permutation `shuffle=[0,0,1,2]` on
a rank-4 input it constructs a node (storing the shuffle as given, with the
input's type) instead of failing `InvalidOperand`. -/
theorem transpose_no_permutation_check :
    isPermutationOf [0, 0, 1, 2] 4 = false ∧
    (mkTransposeNode transInEx "t" [0, 0, 1, 2]).getShuffle = [0, 0, 1, 2] ∧
    (mkTransposeNode transInEx "t" [0, 0, 1, 2]).base.ty = transInEx.ty := by
  decide

/-- C7 (code bug): the `ArithmeticNode` constructor never compares the operand
types: with LHS of type `f32 [2]` and RHS of the different type `f32 [3]` it
constructs a node whose result type is the LHS type instead of failing
`TypeMismatch`. -/
theorem arithmetic_no_type_check :
    arithLEx.getType ≠ arithREx.getType ∧
    (mkArithmeticNode "add" arithLEx arithREx ArithmeticOpKind.Add).base.ty =
      arithLEx.getType ∧
    (mkArithmeticNode "add" arithLEx arithREx ArithmeticOpKind.Add).getLHS = arithLEx ∧
    (mkArithmeticNode "add" arithLEx arithREx ArithmeticOpKind.Add).getRHS = arithREx := by
  decide

/-- C8: `ReluNode`, `SigmoidNode` and `TanhNode` each take exactly one operand
(their only operand field is `in_`) and the result type equals the operand's
type. -/
theorem relu_sigmoid_tanh_type (in_ : Node) (name : String) :
    (mkReluNode in_ name).base.ty = in_.getType ∧
    (mkSigmoidNode in_ name).base.ty = in_.getType ∧
    (mkTanhNode in_ name).base.ty = in_.getType ∧
    (mkReluNode in_ name).getInput = in_ ∧
    (mkSigmoidNode in_ name).getInput = in_ ∧
    (mkTanhNode in_ name).getInput = in_ :=
  ⟨rfl, rfl, rfl, rfl, rfl, rfl⟩

/-- C9 (code bug): the `LocalResponseNormalizationNode` constructor accepts a
`scale` operand but its initializer list never initializes the `scale_`
member, so `getScale()` does not return the operand that was passed in. -/
theorem lrn_scale_not_stored :
    (mkLocalResponseNormalizationNode lrnInEx "lrn" lrnScaleEx 2 1.0 1.0 1.0).getScale
      = none ∧
    (mkLocalResponseNormalizationNode lrnInEx "lrn" lrnScaleEx 2 1.0 1.0 1.0).getScale
      ≠ some lrnScaleEx :=
  ⟨rfl, by decide⟩

/-- C10: every successfully constructed `ConvolutionNode` returns its
construction arguments unchanged through `getInput`, `getFilter`, `getBias`,
`getKernel`, `getStride`, `getPad` and `getDepth`. -/
theorem conv_accessors (in_ filter bias : Node) (name : String)
    (kernel stride pad depth : Nat) (n : ConvolutionNode)
    (hok : mkConvolutionNode in_ name filter bias kernel stride pad depth = Except.ok n) :
    n.getInput = in_ ∧ n.getFilter = filter ∧ n.getBias = bias ∧
    n.getKernel = kernel ∧ n.getStride = stride ∧ n.getPad = pad ∧
    n.getDepth = depth := by
  unfold mkConvolutionNode at hok
  cases hc : convOutputType in_.getType pad kernel stride depth with
  | error e =>
    rw [hc] at hok
    simp only [Except.map] at hok
    cases hok
  | ok ty =>
    rw [hc] at hok
    simp only [Except.map] at hok
    cases hok
    exact ⟨rfl, rfl, rfl, rfl, rfl, rfl, rfl⟩

/-- C10 witness: the scenario-S1 convolution node returns exactly the
arguments it was constructed from. -/
theorem conv_accessors_witness :
    convNodeEx.getInput = convInEx ∧ convNodeEx.getFilter = convFilterEx ∧
    convNodeEx.getBias = convBiasEx ∧ convNodeEx.getKernel = 3 ∧
    convNodeEx.getStride = 1 ∧ convNodeEx.getPad = 1 ∧ convNodeEx.getDepth = 16 :=
  conv_accessors convInEx convFilterEx convBiasEx "conv" 3 1 1 16 convNodeEx rfl

end Glow
